import Mathlib

/-!
Verification development for the ndi-monitor repository (src/ndi.py,
src/display.py, src/app.py).  The Python functions relevant to the checked
claims are shallowly embedded below: pure pixel arithmetic becomes pure
functions on `Int`, the fade controller and scale cache become explicit
state-passing step functions, fallible code returns `Except`/`Option`, and
wall-clock/float quantities are modelled exactly over `ℚ`.
-/

namespace NDIMonitor

/-! ### Pixel converter (src/ndi.py, `_uyvy_to_rgb_numpy` / `_uyvy_to_rgb_numba`)

A UYVY frame row is a byte sequence; `active r i` is byte `i` of row `r` of
the active (non-padding) region, exactly the `active` array the Python code
slices out of the strided buffer.  Python `>> 8` on a (possibly negative)
integer is floor division by 256, and `np.clip(v, 0, 255)` is
`min (max v 0) 255`; int32 intermediates cannot overflow here so plain `Int`
is exact. -/

/-- Arithmetic right shift by 8 bits: Python and numpy `x >> 8` (floor division). -/
def shr8 (x : Int) : Int := Int.fdiv x 256

/-- Channel clamp `np.clip(v, 0, 255)` resp. `min(max(v, 0), 255)`. -/
def clamp8 (x : Int) : Int := min (max x 0) 255

/-- Embedding of `_uyvy_to_rgb_numpy` (src/ndi.py lines 94-120): the value of
output pixel `(y, x)`.  The code reshapes the active bytes of row `y` into
4-byte groups `U, Y0, V, Y1`; even output columns use `Y0`, odd ones `Y1`. -/
def uyvy_to_rgb_numpy (active : Nat → Nat → Nat) (y x : Nat) : Int × Int × Int :=
  let p := x / 2
  let U : Int := active y (4 * p)
  let Y0 : Int := active y (4 * p + 1)
  let V : Int := active y (4 * p + 2)
  let Y1 : Int := active y (4 * p + 3)
  let cb := U - 128
  let cr := V - 128
  let c0 := Y0 - 16
  let c1 := Y1 - 16
  let r_chroma := shr8 (409 * cr + 128)
  let g_chroma := shr8 (-100 * cb - 208 * cr + 128)
  let b_chroma := shr8 (516 * cb + 128)
  let c0_scaled := shr8 (298 * c0)
  let c1_scaled := shr8 (298 * c1)
  if x % 2 = 0 then
    (clamp8 (c0_scaled + r_chroma), clamp8 (c0_scaled + g_chroma), clamp8 (c0_scaled + b_chroma))
  else
    (clamp8 (c1_scaled + r_chroma), clamp8 (c1_scaled + g_chroma), clamp8 (c1_scaled + b_chroma))

/-- Embedding of `_uyvy_to_rgb_numba` (src/ndi.py lines 123-165): the loop over
`x in range(half_width)` writes output columns `x*2` and `x*2+1`, so output
column `x` is written by loop index `x / 2`. -/
def uyvy_to_rgb_numba (active : Nat → Nat → Nat) (y x : Nat) : Int × Int × Int :=
  let half := x / 2
  let idx := half * 4
  let u : Int := active y idx
  let y0 : Int := active y (idx + 1)
  let v : Int := active y (idx + 2)
  let y1 : Int := active y (idx + 3)
  let cb := u - 128
  let cr := v - 128
  let c0 := y0 - 16
  let c1 := y1 - 16
  let r_chroma := shr8 (409 * cr + 128)
  let g_chroma := shr8 (-100 * cb - 208 * cr + 128)
  let b_chroma := shr8 (516 * cb + 128)
  let c0_scaled := shr8 (298 * c0)
  let c1_scaled := shr8 (298 * c1)
  if x % 2 = 0 then
    (min (max (c0_scaled + r_chroma) 0) 255,
     min (max (c0_scaled + g_chroma) 0) 255,
     min (max (c0_scaled + b_chroma) 0) 255)
  else
    (min (max (c1_scaled + r_chroma) 0) 255,
     min (max (c1_scaled + g_chroma) 0) 255,
     min (max (c1_scaled + b_chroma) 0) 255)

/-- Second definition for the refinement comparison, written from the spec's
words only: cb=U-128, cr=V-128, c=Y-16, r=(298*c)>>8 + (409*cr+128)>>8,
g=(298*c)>>8 + (-100*cb-208*cr+128)>>8, b=(298*c)>>8 + (516*cb+128)>>8, each
channel clamped to [0,255]. -/
def spec_bt601_pair (U Y V : Int) : Int × Int × Int :=
  let cb := U - 128
  let cr := V - 128
  let c := Y - 16
  (clamp8 (shr8 (298 * c) + shr8 (409 * cr + 128)),
   clamp8 (shr8 (298 * c) + shr8 (-100 * cb - 208 * cr + 128)),
   clamp8 (shr8 (298 * c) + shr8 (516 * cb + 128)))

/-- Embedding of the strided-buffer slice in `_convert_frame_to_rgb`
(src/ndi.py lines 354-374): `uyvy[:, :width*2]`, i.e. byte `i` of active row
`y` is buffer byte `y * stride + i`. -/
def uyvyActive (data : Nat → Nat) (stride : Nat) (y i : Nat) : Nat :=
  data (y * stride + i)

/-! ### Fade controller (src/display.py, `NDIDisplay.render_frame` lines 274-293
and `NDIDisplay.check_config_update` lines 166-173)

Float arithmetic on `blank_alpha`, `dt` and `step` is modelled exactly over
`ℚ`.  One `fadeTick` is the fade section of one `render_frame` call; the
one-shot print statements are modelled as emitted events. -/

structure FadeState where
  hdmi_blank : Bool
  blank_alpha : ℚ
  fade_full_emitted : Bool
  fade_clear_emitted : Bool

inductive FadeEvent where
  | fullyBlank
  | fullyClear
deriving DecidableEq

/-- One pass of the fade-to-black section of `render_frame`:
`step = 255 * dt / (blank_transition_ms / 1000)`; while blanking
`alpha = min(255, alpha + step)` with a one-shot snap to 255 once
`alpha >= 254`, and symmetrically toward 0 when not blanking. -/
def fadeTick (s : FadeState) (dt transitionMs : ℚ) : FadeState × Option FadeEvent :=
  let step := 255 * dt / (transitionMs / 1000)
  if s.hdmi_blank then
    let a := min 255 (s.blank_alpha + step)
    if 254 ≤ a ∧ s.fade_full_emitted = false then
      ({ s with blank_alpha := 255, fade_full_emitted := true, fade_clear_emitted := false },
        some FadeEvent.fullyBlank)
    else
      ({ s with blank_alpha := a }, none)
  else
    let a := max 0 (s.blank_alpha - step)
    if a ≤ 1 ∧ s.fade_clear_emitted = false then
      ({ s with blank_alpha := 0, fade_clear_emitted := true, fade_full_emitted := false },
        some FadeEvent.fullyClear)
    else
      ({ s with blank_alpha := a }, none)

/-- Folding `fadeTick` over a list of `dt` values, counting how many ticks
emit the one-shot "fully blank" event. -/
def fadeRun (transitionMs : ℚ) : FadeState → List ℚ → FadeState × Nat
  | s, [] => (s, 0)
  | s, dt :: rest =>
    ((fadeRun transitionMs (fadeTick s dt transitionMs).1 rest).1,
      (if (fadeTick s dt transitionMs).2 = some FadeEvent.fullyBlank then 1 else 0) +
        (fadeRun transitionMs (fadeTick s dt transitionMs).1 rest).2)

/-- Embedding of the blank-flag handling in `check_config_update`
(src/display.py lines 166-173): when the configured blank flag differs from
the current one, adopt it and reset both one-shot fade-completion flags. -/
def check_config_update_blank (s : FadeState) (newBlank : Bool) : FadeState :=
  if newBlank ≠ s.hdmi_blank then
    { s with hdmi_blank := newBlank, fade_full_emitted := false, fade_clear_emitted := false }
  else
    s

/-! ### Scale cache (src/display.py, `NDIDisplay.render_frame` lines 248-252)

`int()` of a non-negative float is floor; the float arithmetic is modelled
exactly over `ℚ`. -/

structure ScaleCache where
  cached_frame_size : Nat × Nat
  cached_scaled_size : Int × Int

/-- The recomputation body: `scale = min(width / fw, height / fh)` and
`(int(fw * scale), int(fh * scale))`. -/
def compute_scaled_size (displayW displayH fw fh : Nat) : Int × Int :=
  let scale : ℚ := min ((displayW : ℚ) / (fw : ℚ)) ((displayH : ℚ) / (fh : ℚ))
  (Int.floor ((fw : ℚ) * scale), Int.floor ((fh : ℚ) * scale))

/-- One frame's cache check: recompute exactly when the incoming frame size
differs from `_cached_frame_size`; the second component records whether a
recomputation happened. -/
def scale_cache_step (displayW displayH : Nat) (c : ScaleCache) (fs : Nat × Nat) :
    ScaleCache × Bool :=
  if c.cached_frame_size ≠ fs then
    ({ cached_frame_size := fs,
       cached_scaled_size := compute_scaled_size displayW displayH fs.1 fs.2 }, true)
  else
    (c, false)

/-- Folding the cache check over a sequence of frame sizes, counting the
recomputations. -/
def scale_cache_run (displayW displayH : Nat) : ScaleCache → List (Nat × Nat) → ScaleCache × Nat
  | c, [] => (c, 0)
  | c, fs :: rest =>
    ((scale_cache_run displayW displayH (scale_cache_step displayW displayH c fs).1 rest).1,
      (if (scale_cache_step displayW displayH c fs).2 then 1 else 0) +
        (scale_cache_run displayW displayH (scale_cache_step displayW displayH c fs).1 rest).2)

/-- Specification-side count: the number of positions at which the frame size
differs from the one before it (the first element is compared to the cached
size the run starts from). -/
def change_count : Nat × Nat → List (Nat × Nat) → Nat
  | _, [] => 0
  | prev, fs :: rest => (if fs ≠ prev then 1 else 0) + change_count fs rest

/-! ### Receiver capture and the MJPEG sink (src/ndi.py `NDIReceiver`,
src/app.py `mjpeg`)

`_convert_frame_to_rgb` dispatches on the frame's FourCC tag; its per-branch
pixel output is modelled by the converter functions above, so here the
dispatch carries only the chosen branch.  `get_jpeg_frame`/`get_rgb_frame`
return `Except.error` when the converter raises (the Python exception
propagates out of both, past their `finally` blocks); the second component
records whether `NDIlib_recv_capture_v2` was invoked. -/

def fourccUYVY : Nat := 0x59565955
def fourccBGRA : Nat := 0x41524742
def fourccBGRX : Nat := 0x58524742
def fourccRGBA : Nat := 0x41424752
def fourccRGBX : Nat := 0x58424752

inductive ConvKind where
  | bgra
  | rgba
  | uyvy
deriving DecidableEq

/-- Format dispatch of `NDIReceiver._convert_frame_to_rgb`
(src/ndi.py lines 328-377): any FourCC outside the five supported tags raises
`NDIError("Unsupported FourCC format: ...")`. -/
def convert_frame_to_rgb (fourcc : Nat) : Except String ConvKind :=
  if fourcc = fourccBGRA ∨ fourcc = fourccBGRX then Except.ok ConvKind.bgra
  else if fourcc = fourccRGBA ∨ fourcc = fourccRGBX then Except.ok ConvKind.rgba
  else if fourcc = fourccUYVY then Except.ok ConvKind.uyvy
  else Except.error "Unsupported FourCC format"

/-- Embedding of `NDIReceiver.get_jpeg_frame` (src/ndi.py lines 379-426):
closed receivers return `None` before touching the capture primitive; a
non-video capture result returns `None`; a converter exception propagates.
The Bool records whether the capture primitive was invoked. -/
def get_jpeg_frame (closed : Bool) (frameType : Int) (fourcc : Nat) :
    Except String (Option ConvKind) × Bool :=
  if closed then (Except.ok none, false)
  else if frameType ≠ 1 then (Except.ok none, true)
  else
    match convert_frame_to_rgb fourcc with
    | Except.error e => (Except.error e, true)
    | Except.ok k => (Except.ok (some k), true)

/-- Embedding of `NDIReceiver.get_rgb_frame` (src/ndi.py lines 428-473); same
closed/no-frame/convert structure as `get_jpeg_frame`. -/
def get_rgb_frame (closed : Bool) (frameType : Int) (fourcc : Nat) :
    Except String (Option ConvKind) × Bool :=
  if closed then (Except.ok none, false)
  else if frameType ≠ 1 then (Except.ok none, true)
  else
    match convert_frame_to_rgb fourcc with
    | Except.error e => (Except.error e, true)
    | Except.ok k => (Except.ok (some k), true)

inductive MjpegStep where
  | retrySleep
  | chunk (k : ConvKind)
  | raised (e : String)
deriving DecidableEq

/-- One iteration of the per-reader generator loop in `mjpeg`
(src/app.py lines 621-650): no receiver sleeps and retries; a `None` frame
sleeps and retries; a yielded frame becomes a multipart chunk; there is no
try/except, so an exception out of `get_jpeg_frame` propagates and ends the
generator.  The receiver snapshot is `(closed, capture frame type, FourCC)`. -/
def mjpeg_iter (recv : Option (Bool × Int × Nat)) : MjpegStep :=
  match recv with
  | none => MjpegStep.retrySleep
  | some (closed, frameType, fourcc) =>
    match get_jpeg_frame closed frameType fourcc with
    | (Except.ok none, _) => MjpegStep.retrySleep
    | (Except.ok (some k), _) => MjpegStep.chunk k
    | (Except.error e, _) => MjpegStep.raised e

/-! ### Settings endpoint (src/app.py, `update_settings` lines 348-387) -/

structure StreamSettings where
  jpeg_quality : Int
  output_width : Int
  output_height : Int
deriving DecidableEq

/-- Embedding of `update_settings`: quality (when present) is clamped to
[20, 95] and stored; when either output field is present, a mismatched
zero/non-zero pair raises a 400 before the dimensions are assigned, otherwise
non-zero dimensions are clamped to [160, 3840] x [120, 2160] and stored.
The `Option String` is the HTTP 400 detail, `none` meaning success. -/
def update_settings (s : StreamSettings) (quality? width? height? : Option Int) :
    StreamSettings × Option String :=
  let s1 := match quality? with
    | some q => { s with jpeg_quality := max 20 (min 95 q) }
    | none => s
  if width?.isSome ∨ height?.isSome then
    let w := width?.getD 0
    let h := height?.getD 0
    if (w == 0) != (h == 0) then
      (s1, some "outputWidth and outputHeight must both be set (or both 0)")
    else if w ≠ 0 then
      ({ s1 with output_width := max 160 (min 3840 w),
                 output_height := max 120 (min 2160 h) }, none)
    else
      ({ s1 with output_width := w, output_height := h }, none)
  else
    (s1, none)

/-! ### Source selection (src/app.py, `select_source` lines 307-336) -/

structure AppSelState where
  receiver : Option Nat
  selected_source_name : Option String
  config_selected : Option String

inductive SelectResp where
  | badRequest
  | okSel (selected : Option String) (pending : Bool)
deriving DecidableEq

/-- Embedding of `select_source`.  A missing or empty name is a 400 with no
state change.  Otherwise the name is saved to the config file and published
first; then, under the receiver lock, any existing receiver is closed and
discarded and a new one is constructed via `ctor` (the `NDIReceiver`
constructor, `none` meaning it raised).  On failure the handle stays `None`
and the endpoint still answers ok with `pending := true`.  The final Bool
records whether a previously live handle was closed. -/
def select_source (s : AppSelState) (ctor : String → Option Nat) (name? : Option String) :
    AppSelState × SelectResp × Bool :=
  match name? with
  | none => (s, SelectResp.badRequest, false)
  | some name =>
    if name = "" then (s, SelectResp.badRequest, false)
    else
      let s1 := { s with config_selected := some name, selected_source_name := some name }
      let oldClosed := s1.receiver.isSome
      match ctor name with
      | none =>
        ({ s1 with receiver := none }, SelectResp.okSel (some name) true, oldClosed)
      | some hnd =>
        ({ s1 with receiver := some hnd }, SelectResp.okSel (some name) false, oldClosed)

/-! ### Direct sink branch structure (src/display.py, `render_frame` lines 224-243) -/

inductive RenderAction where
  | paintBlack
  | showMessage
  | readSource
deriving DecidableEq

/-- The three-way branch at the top of `render_frame`:
`fully_blanked = hdmi_blank and blank_alpha >= 255.0` paints black and skips
the receiver; with no receiver the fallback message is rendered; otherwise
`get_rgb_frame` is called on the receiver. -/
def render_branch (hdmi_blank : Bool) (blank_alpha : ℚ) (hasReceiver : Bool) : RenderAction :=
  if hdmi_blank = true ∧ 255 ≤ blank_alpha then RenderAction.paintBlack
  else if hasReceiver = false then RenderAction.showMessage
  else RenderAction.readSource

/-- Whether a `render_frame` branch issues a capture request to the frame
source. -/
def calls_frame_source : RenderAction → Bool
  | RenderAction.readSource => true
  | _ => false

/-! ### Fallback message templating and reconnection (src/display.py,
`NDIDisplay.format_template` lines 115-131 and `connect_to_source` lines 182-196)

Python `str.replace` replaces every non-overlapping occurrence left to right;
`replace_fuel` implements exactly that, fuelled by the source length so that
it is structurally recursive (each step consumes at least one source
character, so `l.length` fuel is always enough for the non-empty patterns
used here). -/

def replace_fuel (pat rep : List Char) : Nat → List Char → List Char
  | _, [] => []
  | 0, l => l
  | Nat.succ fuel, c :: rest =>
    if List.isPrefixOf pat (c :: rest) then
      rep ++ replace_fuel pat rep fuel (List.drop (pat.length - 1) rest)
    else
      c :: replace_fuel pat rep fuel rest

/-- Python `s.replace(pat, rep)` for the non-empty patterns used by
`format_template`. -/
def str_replace (s pat rep : String) : String :=
  String.mk (replace_fuel pat.data rep.data s.data.length s.data)

/-- Embedding of `NDIDisplay.format_template`: empty templates are returned
unchanged; otherwise the seven tokens are replaced in the context-dictionary
order ip, hostname, source, width, height, resolution, time, with `<source>`
taking `selected_source or ""`. -/
def format_template (template ip hostname : String) (selected : Option String)
    (width height : Nat) (timeStr : String) : String :=
  if template = "" then template
  else
    let m1 := str_replace template "<ip>" ip
    let m2 := str_replace m1 "<hostname>" hostname
    let m3 := str_replace m2 "<source>" (selected.getD "")
    let m4 := str_replace m3 "<width>" (toString width)
    let m5 := str_replace m4 "<height>" (toString height)
    let m6 := str_replace m5 "<resolution>" (toString width ++ "x" ++ toString height)
    str_replace m6 "<time>" timeStr

structure DisplayConn where
  receiver : Option Nat
  selected_source : Option String

/-- Embedding of `NDIDisplay.connect_to_source`: any existing receiver is
closed and dropped; with no (or an empty) selected source it stops there;
otherwise the `NDIReceiver` constructor runs (`ctor`, `none` meaning it
raised) and on failure the receiver stays `None` while `selected_source` is
left untouched.  The Bool records whether an old handle was closed. -/
def connect_to_source (s : DisplayConn) (ctor : String → Option Nat) : DisplayConn × Bool :=
  let oldClosed := s.receiver.isSome
  match s.selected_source with
  | none => ({ s with receiver := none }, oldClosed)
  | some name =>
    if name = "" then ({ s with receiver := none }, oldClosed)
    else ({ s with receiver := ctor name }, oldClosed)

/-! ### Message endpoint (src/app.py, `update_message` lines 399-423) -/

/-- Embedding of `update_message`: both fields are read with default "",
stripped, and the primary message falls back to "No NDI Source" when the
stripped value is empty; the subtext is stored as stripped (possibly empty).
Returns (stored primary, stored subtext). -/
def update_message (msg? sub? : Option String) : String × String :=
  let msg := (msg?.getD "").trim
  let sub := (sub?.getD "").trim
  (if msg ≠ "" then msg else "No NDI Source", sub)

/-! ## Theorems -/

/-- C1: for every UYVY frame, each output pixel of the numpy converter is
exactly the spec's fixed-point BT.601 value (each channel clamped to
[0, 255]) of the pixel's own U, Y, V bytes; the numba converter agrees with
the numpy one on every input; and on a strided buffer with
stride >= width*2 the output depends only on the active width*2 bytes of
each row. -/
theorem uyvy_conversion_correct (active : Nat → Nat → Nat) (data data' : Nat → Nat)
    (stride width y x : Nat)
    (_hstride : width * 2 ≤ stride) (heven : width % 2 = 0) (hx : x < width)
    (hagree : ∀ (r i : Nat), i < width * 2 → data (r * stride + i) = data' (r * stride + i)) :
    uyvy_to_rgb_numpy active y x =
      spec_bt601_pair (active y (4 * (x / 2)))
        (active y (4 * (x / 2) + 1 + 2 * (x % 2)))
        (active y (4 * (x / 2) + 2)) ∧
    uyvy_to_rgb_numba active y x = uyvy_to_rgb_numpy active y x ∧
    uyvy_to_rgb_numpy (uyvyActive data stride) y x =
      uyvy_to_rgb_numpy (uyvyActive data' stride) y x := by
  refine ⟨?_, ?_, ?_⟩
  · rcases Nat.mod_two_eq_zero_or_one x with h | h <;>
      simp [uyvy_to_rgb_numpy, spec_bt601_pair, h]
  · rcases Nat.mod_two_eq_zero_or_one x with h | h <;>
      simp [uyvy_to_rgb_numba, uyvy_to_rgb_numpy, clamp8, h, Nat.mul_comm]
  · have h0 := hagree y (4 * (x / 2)) (by omega)
    have h1 := hagree y (4 * (x / 2) + 1) (by omega)
    have h2 := hagree y (4 * (x / 2) + 2) (by omega)
    have h3 := hagree y (4 * (x / 2) + 3) (by omega)
    simp only [uyvy_to_rgb_numpy, uyvyActive, h0, h1, h2, h3]

/-- Witness for C1 at a concrete frame: width 4, stride 10, pixel (0, 3). -/
theorem uyvy_conversion_correct_witness :
    4 * 2 ≤ 10 ∧ 4 % 2 = 0 ∧ 3 < 4 ∧
    uyvy_to_rgb_numba (fun _ i => (i * 37) % 256) 0 3 =
      uyvy_to_rgb_numpy (fun _ i => (i * 37) % 256) 0 3 :=
  ⟨by decide, by decide, by decide,
    (uyvy_conversion_correct (fun _ i => (i * 37) % 256) (fun n => n) (fun n => n) 10 4 0 3
      (by decide) (by decide) (by decide) (fun _ _ _ => rfl)).2.1⟩

/-- Helper: the fade step is non-negative for non-negative dt and a positive
transition duration. -/
lemma fade_step_nonneg {dt tms : ℚ} (hdt : 0 ≤ dt) (htms : 0 < tms) :
    0 ≤ 255 * dt / (tms / 1000) := by
  have h1 : (0 : ℚ) ≤ 255 * dt := by linarith
  have h2 : (0 : ℚ) ≤ tms / 1000 := by linarith
  exact div_nonneg h1 h2

/-- Helper: once the "fully blank" event has fired, further blank ticks keep
alpha at 255 and emit nothing. -/
lemma fadeRun_blank_after_emit (tms : ℚ) (htms : 0 < tms) (c : Bool) :
    ∀ dts : List ℚ, (∀ d ∈ dts, 0 ≤ d) →
      fadeRun tms ⟨true, 255, true, c⟩ dts = (⟨true, 255, true, c⟩, 0) := by
  intro dts
  induction dts with
  | nil => intro _; rfl
  | cons dt rest ih =>
    intro h
    have hdt : 0 ≤ dt := h dt (List.mem_cons_self _ _)
    have hstep := fade_step_nonneg hdt htms
    have htick : fadeTick ⟨true, 255, true, c⟩ dt tms = (⟨true, 255, true, c⟩, none) := by
      have hmin : min (255 : ℚ) (255 + 255 * dt / (tms / 1000)) = 255 :=
        min_eq_left (by linarith)
      simp [fadeTick, hmin]
    simp only [fadeRun, htick]
    rw [ih (fun d hd => h d (List.mem_cons_of_mem _ hd))]
    simp

/-- Helper: from an un-emitted blank state with alpha below 254, a sequence of
non-negative dt ticks whose steps sum past 255 ends at alpha 255 having
emitted the "fully blank" event exactly once. -/
lemma fadeRun_blank_progress (tms : ℚ) (htms : 0 < tms) :
    ∀ dts : List ℚ, (∀ d ∈ dts, 0 ≤ d) →
      ∀ (a : ℚ) (c : Bool), 0 ≤ a → a < 254 →
        255 ≤ a + (dts.map (fun d => 255 * d / (tms / 1000))).sum →
        (fadeRun tms ⟨true, a, false, c⟩ dts).1.blank_alpha = 255 ∧
          (fadeRun tms ⟨true, a, false, c⟩ dts).2 = 1 := by
  intro dts
  induction dts with
  | nil =>
    intro _ a c _ ha254 hsum
    simp only [List.map_nil, List.sum_nil, add_zero] at hsum
    linarith
  | cons dt rest ih =>
    intro h a c ha0 ha254 hsum
    have hdt : 0 ≤ dt := h dt (List.mem_cons_self _ _)
    have hrest : ∀ d ∈ rest, 0 ≤ d := fun d hd => h d (List.mem_cons_of_mem _ hd)
    have hstep := fade_step_nonneg hdt htms
    simp only [List.map_cons, List.sum_cons] at hsum
    by_cases hc : 254 ≤ min (255 : ℚ) (a + 255 * dt / (tms / 1000))
    · have htick : fadeTick ⟨true, a, false, c⟩ dt tms =
          (⟨true, 255, true, false⟩, some FadeEvent.fullyBlank) := by
        simp [fadeTick, hc]
      simp only [fadeRun, htick]
      rw [fadeRun_blank_after_emit tms htms false rest hrest]
      simp
    · have hlt : min (255 : ℚ) (a + 255 * dt / (tms / 1000)) < 254 := by linarith
      have hsum_lt : a + 255 * dt / (tms / 1000) < 254 := by
        rcases min_lt_iff.mp hlt with h255 | hok
        · linarith
        · exact hok
      have hmin : min (255 : ℚ) (a + 255 * dt / (tms / 1000)) =
          a + 255 * dt / (tms / 1000) := min_eq_right (by linarith)
      have htick : fadeTick ⟨true, a, false, c⟩ dt tms =
          (⟨true, a + 255 * dt / (tms / 1000), false, c⟩, none) := by
        simp [fadeTick, hmin, hc]
        linarith
      simp only [fadeRun, htick]
      have := ih hrest (a + 255 * dt / (tms / 1000)) c (by linarith) (by linarith)
        (by linarith)
      simp [this.1, this.2]

/-- C2: starting from alpha 0 with the blank flag set and both one-shot flags
clear, any sequence of non-negative dt ticks whose steps sum to at least 255
drives alpha to 255 and emits the "fully blank" event exactly once; a flip of
the configured blank flag resets both one-shot flags (and never touches
alpha); and no single tick moves alpha by more than one step plus the 1-unit
snap margin. -/
theorem fade_controller_blank_once (tms dt : ℚ) (dts : List ℚ) (s : FadeState) (b : Bool)
    (htms : 0 < tms) (hdts : ∀ d ∈ dts, 0 ≤ d)
    (hsum : 255 ≤ (dts.map (fun d => 255 * d / (tms / 1000))).sum)
    (hdt : 0 ≤ dt) (ha0 : 0 ≤ s.blank_alpha) (ha255 : s.blank_alpha ≤ 255) :
    ((fadeRun tms ⟨true, 0, false, false⟩ dts).1.blank_alpha = 255 ∧
      (fadeRun tms ⟨true, 0, false, false⟩ dts).2 = 1) ∧
    (b ≠ s.hdmi_blank →
      (check_config_update_blank s b).fade_full_emitted = false ∧
      (check_config_update_blank s b).fade_clear_emitted = false ∧
      (check_config_update_blank s b).hdmi_blank = b) ∧
    (check_config_update_blank s b).blank_alpha = s.blank_alpha ∧
    |(fadeTick s dt tms).1.blank_alpha - s.blank_alpha| ≤ 255 * dt / (tms / 1000) + 1 := by
  have hstep := fade_step_nonneg hdt htms
  refine ⟨?_, ?_, ?_, ?_⟩
  · exact fadeRun_blank_progress tms htms dts hdts 0 false le_rfl (by norm_num)
      (by simpa using hsum)
  · intro hb
    simp [check_config_update_blank, hb]
  · by_cases hb : b ≠ s.hdmi_blank <;> simp [check_config_update_blank, hb]
  · rw [abs_sub_le_iff]
    obtain ⟨blank, alpha, fe, ce⟩ := s
    dsimp only at ha0 ha255 ⊢
    have hA := le_max_right (0 : ℚ) (alpha - 255 * dt / (tms / 1000))
    have hB : max 0 (alpha - 255 * dt / (tms / 1000)) ≤ alpha := max_le ha0 (by linarith)
    have hC := min_le_right (255 : ℚ) (alpha + 255 * dt / (tms / 1000))
    have hD : alpha ≤ min (255 : ℚ) (alpha + 255 * dt / (tms / 1000)) :=
      le_min ha255 (by linarith)
    cases blank
    · simp only [fadeTick]
      rw [if_neg Bool.false_ne_true]
      split_ifs with hcond
      · dsimp only
        constructor
        · linarith
        · linarith [hcond.1]
      · dsimp only
        constructor
        · linarith
        · linarith
    · simp only [fadeTick, if_true]
      split_ifs with hcond
      · dsimp only
        constructor
        · linarith [hcond.1]
        · linarith
      · dsimp only
        constructor
        · linarith
        · linarith

/-- Witness for C2: transition 400 ms, two ticks of 0.2 s (steps of 127.5
each, summing to 255), checked from a mid-fade state. -/
theorem fade_controller_blank_once_witness :
    (0 : ℚ) < 400 ∧
    (255 : ℚ) ≤ (([1/5, 1/5] : List ℚ).map (fun d => 255 * d / (400 / 1000))).sum ∧
    ((fadeRun 400 ⟨true, 0, false, false⟩ [1/5, 1/5]).1.blank_alpha = 255 ∧
      (fadeRun 400 ⟨true, 0, false, false⟩ [1/5, 1/5]).2 = 1) ∧
    (true ≠ (⟨false, 100, false, false⟩ : FadeState).hdmi_blank →
      (check_config_update_blank ⟨false, 100, false, false⟩ true).fade_full_emitted = false ∧
      (check_config_update_blank ⟨false, 100, false, false⟩ true).fade_clear_emitted = false ∧
      (check_config_update_blank ⟨false, 100, false, false⟩ true).hdmi_blank = true) ∧
    (check_config_update_blank ⟨false, 100, false, false⟩ true).blank_alpha =
      (⟨false, 100, false, false⟩ : FadeState).blank_alpha ∧
    |(fadeTick ⟨false, 100, false, false⟩ (1/10) 400).1.blank_alpha -
        (⟨false, 100, false, false⟩ : FadeState).blank_alpha| ≤ 255 * (1/10) / (400 / 1000) + 1 :=
  ⟨by norm_num, by norm_num,
    fade_controller_blank_once 400 (1/10) [1/5, 1/5] ⟨false, 100, false, false⟩ true
      (by norm_num) (by norm_num) (by norm_num) (by norm_num) (by norm_num) (by norm_num)⟩

/-- Helper: a cache step always leaves the incoming frame size as the cached
frame size. -/
lemma scale_cache_step_frame_size (dW dH : Nat) (c : ScaleCache) (fs : Nat × Nat) :
    ((scale_cache_step dW dH c fs).1).cached_frame_size = fs := by
  by_cases h : c.cached_frame_size = fs
  · simp [scale_cache_step, h]
  · simp [scale_cache_step, h]

/-- Helper: the number of recomputations over a run equals the number of
positions where the size differs from its predecessor. -/
lemma scale_cache_run_count (dW dH : Nat) :
    ∀ (sizes : List (Nat × Nat)) (c : ScaleCache),
      (scale_cache_run dW dH c sizes).2 = change_count c.cached_frame_size sizes := by
  intro sizes
  induction sizes with
  | nil => intro c; rfl
  | cons fs rest ih =>
    intro c
    by_cases h : c.cached_frame_size = fs
    · have hstep : scale_cache_step dW dH c fs = (c, false) := by
        simp [scale_cache_step, h]
      simp only [scale_cache_run, hstep, change_count]
      rw [ih c]
      simp [h]
    · have hstep : scale_cache_step dW dH c fs =
          ({ cached_frame_size := fs,
             cached_scaled_size := compute_scaled_size dW dH fs.1 fs.2 }, true) := by
        simp [scale_cache_step, h]
      simp only [scale_cache_run, hstep, change_count]
      rw [ih]
      simp [Ne.symm h]

/-- C3 counterexample: for the size sequence A, B, A the cache recomputes
three times although the sequence has only two distinct sizes, so the target
size is not recomputed "exactly once per distinct source size". -/
theorem scale_cache_distinct_counterexample :
    (scale_cache_run 1920 1080 ⟨(0, 0), (0, 0)⟩
        [(100, 100), (200, 200), (100, 100)]).2 = 3 ∧
    ([(100, 100), (200, 200), (100, 100)] : List (Nat × Nat)).dedup.length = 2 ∧
    (scale_cache_run 1920 1080 ⟨(0, 0), (0, 0)⟩
        [(100, 100), (200, 200), (100, 100)]).2 ≠
      ([(100, 100), (200, 200), (100, 100)] : List (Nat × Nat)).dedup.length := by
  refine ⟨?_, by decide, ?_⟩
  · rw [scale_cache_run_count]
    decide
  · rw [scale_cache_run_count]
    decide

/-- C3 (amended): the target size is recomputed exactly when the source size
differs from the previous frame's size (once per change, not once per
distinct value over the whole sequence), the cached value is returned
otherwise, and every computed target fits the display on both axes while
being the floor-rounded image of scale = min(displayW/srcW, displayH/srcH). -/
theorem scale_cache_recompute_iff_changed (dW dH fw fh : Nat) (c : ScaleCache)
    (sizes : List (Nat × Nat)) (hfw : 0 < fw) (hfh : 0 < fh) :
    (scale_cache_run dW dH c sizes).2 = change_count c.cached_frame_size sizes ∧
    scale_cache_step dW dH c c.cached_frame_size = (c, false) ∧
    (c.cached_frame_size ≠ (fw, fh) →
      scale_cache_step dW dH c (fw, fh) =
        ({ cached_frame_size := (fw, fh),
           cached_scaled_size := compute_scaled_size dW dH fw fh }, true)) ∧
    (compute_scaled_size dW dH fw fh).1 ≤ (dW : Int) ∧
    (compute_scaled_size dW dH fw fh).2 ≤ (dH : Int) ∧
    compute_scaled_size dW dH fw fh =
      (Int.floor ((fw : ℚ) * min ((dW : ℚ) / (fw : ℚ)) ((dH : ℚ) / (fh : ℚ))),
       Int.floor ((fh : ℚ) * min ((dW : ℚ) / (fw : ℚ)) ((dH : ℚ) / (fh : ℚ)))) := by
  have hfwq : (0 : ℚ) < (fw : ℚ) := by exact_mod_cast hfw
  have hfhq : (0 : ℚ) < (fh : ℚ) := by exact_mod_cast hfh
  refine ⟨scale_cache_run_count dW dH sizes c, by simp [scale_cache_step], ?_, ?_, ?_, rfl⟩
  · intro h
    simp [scale_cache_step, h]
  · have h1 : (fw : ℚ) * min ((dW : ℚ) / (fw : ℚ)) ((dH : ℚ) / (fh : ℚ)) ≤ (dW : ℚ) := by
      calc (fw : ℚ) * min ((dW : ℚ) / (fw : ℚ)) ((dH : ℚ) / (fh : ℚ))
          ≤ (fw : ℚ) * ((dW : ℚ) / (fw : ℚ)) :=
            mul_le_mul_of_nonneg_left (min_le_left _ _) (le_of_lt hfwq)
        _ = (dW : ℚ) := by field_simp
    calc (compute_scaled_size dW dH fw fh).1 ≤ Int.floor ((dW : ℚ)) := Int.floor_mono h1
      _ = (dW : Int) := Int.floor_natCast dW
  · have h2 : (fh : ℚ) * min ((dW : ℚ) / (fw : ℚ)) ((dH : ℚ) / (fh : ℚ)) ≤ (dH : ℚ) := by
      calc (fh : ℚ) * min ((dW : ℚ) / (fw : ℚ)) ((dH : ℚ) / (fh : ℚ))
          ≤ (fh : ℚ) * ((dH : ℚ) / (fh : ℚ)) :=
            mul_le_mul_of_nonneg_left (min_le_right _ _) (le_of_lt hfhq)
        _ = (dH : ℚ) := by field_simp
    calc (compute_scaled_size dW dH fw fh).2 ≤ Int.floor ((dH : ℚ)) := Int.floor_mono h2
      _ = (dH : Int) := Int.floor_natCast dH

/-- Witness for C3 (amended) on a 1920x1080 display with a repeated 1280x720
source. -/
theorem scale_cache_recompute_iff_changed_witness :
    0 < 1280 ∧ 0 < 720 ∧
    (scale_cache_run 1920 1080 ⟨(0, 0), (0, 0)⟩ [(1280, 720), (1280, 720)]).2 =
      change_count (0, 0) [(1280, 720), (1280, 720)] ∧
    (compute_scaled_size 1920 1080 1280 720).1 ≤ (1920 : Int) ∧
    (compute_scaled_size 1920 1080 1280 720).2 ≤ (1080 : Int) :=
  ⟨by decide, by decide,
    (scale_cache_recompute_iff_changed 1920 1080 1280 720 ⟨(0, 0), (0, 0)⟩
      [(1280, 720), (1280, 720)] (by decide) (by decide)).1,
    (scale_cache_recompute_iff_changed 1920 1080 1280 720 ⟨(0, 0), (0, 0)⟩
      [(1280, 720), (1280, 720)] (by decide) (by decide)).2.2.2.1,
    (scale_cache_recompute_iff_changed 1920 1080 1280 720 ⟨(0, 0), (0, 0)⟩
      [(1280, 720), (1280, 720)] (by decide) (by decide)).2.2.2.2.1⟩

/-- C4 counterexample: with a live receiver delivering a video frame whose
FourCC is unsupported (tag 0), the per-reader MJPEG loop iteration raises
instead of treating the failure as a skipped tick — the converter exception
is not caught at the sink boundary, so the stream terminates on its own. -/
theorem mjpeg_loop_terminates_on_unsupported_format :
    mjpeg_iter (some (false, 1, 0)) = MjpegStep.raised "Unsupported FourCC format" := by
  decide

/-- C4 (amended): the per-reader loop sleeps and retries indefinitely on
no-source and on a no-frame (None) capture result, and the only way an
iteration terminates the loop is an exception raised by the converter on an
unsupported pixel format; None results are never propagated as termination. -/
theorem mjpeg_loop_retries_only_none (closed : Bool) (ft : Int) (fcc : Nat) :
    mjpeg_iter none = MjpegStep.retrySleep ∧
    (ft ≠ 1 → mjpeg_iter (some (closed, ft, fcc)) = MjpegStep.retrySleep) ∧
    (closed = true → mjpeg_iter (some (closed, ft, fcc)) = MjpegStep.retrySleep) ∧
    (∀ e, mjpeg_iter (some (closed, ft, fcc)) = MjpegStep.raised e →
      convert_frame_to_rgb fcc = Except.error e ∧ e = "Unsupported FourCC format") := by
  refine ⟨rfl, ?_, ?_, ?_⟩
  · intro hft
    cases closed
    · simp [mjpeg_iter, get_jpeg_frame, hft]
    · simp [mjpeg_iter, get_jpeg_frame]
  · intro hcl
    subst hcl
    simp [mjpeg_iter, get_jpeg_frame]
  · intro e he
    cases closed
    · by_cases hft : ft = 1
      · subst hft
        rcases hconv : convert_frame_to_rgb fcc with msg | k
        · have hmsg : msg = e := by
            simp [mjpeg_iter, get_jpeg_frame, hconv] at he
            exact he
          subst hmsg
          refine ⟨rfl, ?_⟩
          revert hconv
          simp only [convert_frame_to_rgb]
          split_ifs <;> intro hconv <;> simp_all
        · exfalso
          simp [mjpeg_iter, get_jpeg_frame, hconv] at he
      · exfalso
        simp [mjpeg_iter, get_jpeg_frame, hft] at he
    · exfalso
      simp [mjpeg_iter, get_jpeg_frame] at he

/-- Witness for C4 (amended): a non-video capture result (frame type 0) is a
retried tick. -/
theorem mjpeg_loop_retries_only_none_witness :
    (0 : Int) ≠ 1 ∧ mjpeg_iter (some (false, 0, fourccUYVY)) = MjpegStep.retrySleep :=
  ⟨by decide, (mjpeg_loop_retries_only_none false 0 fourccUYVY).2.1 (by decide)⟩

/-- C9: after close() the receiver's capture calls return None (the normal
no-frame outcome) for every argument combination, without raising and
without invoking the underlying capture primitive. -/
theorem closed_receiver_returns_none (ft : Int) (fcc : Nat) :
    get_jpeg_frame true ft fcc = (Except.ok none, false) ∧
    get_rgb_frame true ft fcc = (Except.ok none, false) :=
  ⟨rfl, rfl⟩

/-- C5: update_settings clamps any integer quality to [20, 95] (input 5
stores 20); a mismatched zero/non-zero output-size pair is rejected with a
validation error and neither stored dimension changes; a both-non-zero pair
is stored clamped to [160, 3840] x [120, 2160]. -/
theorem update_settings_validates (s : StreamSettings) (q w h : Int) :
    (20 ≤ (update_settings s (some q) none none).1.jpeg_quality ∧
      (update_settings s (some q) none none).1.jpeg_quality ≤ 95 ∧
      (update_settings s (some q) none none).1.jpeg_quality = max 20 (min 95 q) ∧
      (update_settings s (some 5) none none).1.jpeg_quality = 20 ∧
      (update_settings s (some q) none none).2 = none) ∧
    (((w == 0) != (h == 0)) = true →
      (update_settings s none (some w) (some h)).2.isSome = true ∧
      (update_settings s none (some w) (some h)).1.output_width = s.output_width ∧
      (update_settings s none (some w) (some h)).1.output_height = s.output_height) ∧
    (w ≠ 0 → h ≠ 0 →
      (update_settings s none (some w) (some h)).2 = none ∧
      (update_settings s none (some w) (some h)).1.output_width = max 160 (min 3840 w) ∧
      (update_settings s none (some w) (some h)).1.output_height = max 120 (min 2160 h) ∧
      160 ≤ (update_settings s none (some w) (some h)).1.output_width ∧
      (update_settings s none (some w) (some h)).1.output_width ≤ 3840 ∧
      120 ≤ (update_settings s none (some w) (some h)).1.output_height ∧
      (update_settings s none (some w) (some h)).1.output_height ≤ 2160) := by
  have hq : (update_settings s (some q) none none).1.jpeg_quality = max 20 (min 95 q) := rfl
  refine ⟨?_, ?_, ?_⟩
  · refine ⟨?_, ?_, hq, by simp [update_settings], rfl⟩
    · rw [hq]; exact le_max_left _ _
    · rw [hq]; exact max_le (by norm_num) (min_le_left _ _)
  · intro hxor
    simp [update_settings, hxor]
  · intro hw hh
    have hxor : ((w == 0) != (h == 0)) = false := by
      simp [hw, hh]
    have hred : update_settings s none (some w) (some h) =
        ({ s with output_width := max 160 (min 3840 w),
                  output_height := max 120 (min 2160 h) }, none) := by
      simp [update_settings, hxor, hw]
    rw [hred]
    exact ⟨rfl, rfl, rfl, le_max_left _ _, max_le (by norm_num) (min_le_left _ _),
      le_max_left _ _, max_le (by norm_num) (min_le_left _ _)⟩

/-- Witness for C5: quality 5 clamps to 20; the pair (100, 0) is rejected
leaving the stored size untouched; the pair (100, 50) stores (160, 120). -/
theorem update_settings_validates_witness :
    ((((100 : Int) == 0) != ((0 : Int) == 0)) = true ∧
      (update_settings ⟨80, 640, 480⟩ none (some 100) (some 0)).2.isSome = true ∧
      (update_settings ⟨80, 640, 480⟩ none (some 100) (some 0)).1.output_width = 640 ∧
      (update_settings ⟨80, 640, 480⟩ none (some 100) (some 0)).1.output_height = 480) ∧
    (update_settings ⟨80, 640, 480⟩ (some 5) none none).1.jpeg_quality = 20 :=
  ⟨⟨by decide,
      (update_settings_validates ⟨80, 640, 480⟩ 5 100 0).2.1 (by decide)⟩,
    (update_settings_validates ⟨80, 640, 480⟩ 5 100 0).1.2.2.2.1⟩

/-- C6: select_source with a non-empty name records the name in the config
file and publishes it before attempting construction, closes and discards
any existing handle, and on construction failure leaves the handle null
while answering ok with the pending flag set; on success the new handle is
published. -/
theorem select_source_discards_then_publishes (s : AppSelState) (ctor : String → Option Nat)
    (name : String) (hname : name ≠ "") :
    (select_source s ctor (some name)).2.2 = s.receiver.isSome ∧
    (select_source s ctor (some name)).1.config_selected = some name ∧
    (select_source s ctor (some name)).1.selected_source_name = some name ∧
    (ctor name = none →
      (select_source s ctor (some name)).1.receiver = none ∧
      (select_source s ctor (some name)).2.1 = SelectResp.okSel (some name) true) ∧
    (∀ hnd, ctor name = some hnd →
      (select_source s ctor (some name)).1.receiver = some hnd ∧
      (select_source s ctor (some name)).2.1 = SelectResp.okSel (some name) false) := by
  rcases hctor : ctor name with _ | hnd
  · have hred : select_source s ctor (some name) =
        ({ s with config_selected := some name, selected_source_name := some name,
                  receiver := none },
          SelectResp.okSel (some name) true, s.receiver.isSome) := by
      simp [select_source, hname, hctor]
    rw [hred]
    exact ⟨rfl, rfl, rfl, fun _ => ⟨rfl, rfl⟩, fun hnd hh => absurd hh (by simp)⟩
  · have hred : select_source s ctor (some name) =
        ({ s with config_selected := some name, selected_source_name := some name,
                  receiver := some hnd },
          SelectResp.okSel (some name) false, s.receiver.isSome) := by
      simp [select_source, hname, hctor]
    rw [hred]
    refine ⟨rfl, rfl, rfl, fun hh => absurd hh (by simp), fun hnd' hh => ?_⟩
    have heq : hnd = hnd' := Option.some.inj hh
    subst heq
    exact ⟨rfl, rfl⟩

/-- Witness for C6: selecting "Cam 1" while holding handle 7 with a failing
constructor closes the old handle, keeps the name recorded and pending, and
leaves the handle null. -/
theorem select_source_discards_then_publishes_witness :
    ("Cam 1" : String) ≠ "" ∧
    (select_source ⟨some 7, none, none⟩ (fun _ => none) (some "Cam 1")).2.2 = true ∧
    (select_source ⟨some 7, none, none⟩ (fun _ => none) (some "Cam 1")).1.receiver = none ∧
    (select_source ⟨some 7, none, none⟩ (fun _ => none) (some "Cam 1")).1.config_selected =
      some "Cam 1" ∧
    (select_source ⟨some 7, none, none⟩ (fun _ => none) (some "Cam 1")).2.1 =
      SelectResp.okSel (some "Cam 1") true := by
  have h := select_source_discards_then_publishes ⟨some 7, none, none⟩ (fun _ => none)
    "Cam 1" (by decide)
  exact ⟨by decide, h.1, (h.2.2.2.1 rfl).1, h.2.1, (h.2.2.2.1 rfl).2⟩

/-- C7 counterexample: with the blank flag off but alpha still at 255 (the
state one tick after blanking is switched off mid-black), the direct sink
does not paint black — it reads the frame source, so "alpha == 255 implies
black paint and no capture" is false as stated. -/
theorem render_alpha_only_counterexample :
    render_branch false 255 true = RenderAction.readSource ∧
    calls_frame_source (render_branch false 255 true) = true := by
  constructor <;> decide

/-- C7 (amended): on every iteration in which the blank flag is set and alpha
has reached 255, the direct sink paints solid black and never issues a
capture request; alpha == 255 alone (with the blank flag clear) does not skip
the source read. -/
theorem render_fully_blanked_skips_source (alpha : ℚ) (hasReceiver : Bool)
    (h : 255 ≤ alpha) :
    render_branch true alpha hasReceiver = RenderAction.paintBlack ∧
    calls_frame_source (render_branch true alpha hasReceiver) = false := by
  have hb : render_branch true alpha hasReceiver = RenderAction.paintBlack := by
    simp [render_branch, h]
  exact ⟨hb, by rw [hb]; rfl⟩

/-- Witness for C7 (amended) at alpha exactly 255 with a live receiver. -/
theorem render_fully_blanked_skips_source_witness :
    (255 : ℚ) ≤ 255 ∧
    render_branch true 255 true = RenderAction.paintBlack ∧
    calls_frame_source (render_branch true 255 true) = false :=
  ⟨by norm_num, render_fully_blanked_skips_source 255 true (by norm_num)⟩

/-- Helper: replacing a pattern that starts with the character < leaves any
character list without < unchanged, for every fuel value. -/
lemma replace_fuel_no_lt (p rep : List Char) :
    ∀ (fuel : Nat) (l : List Char), (∀ c ∈ l, c ≠ '<') →
      replace_fuel ('<' :: p) rep fuel l = l := by
  intro fuel
  induction fuel with
  | zero =>
    intro l _
    cases l <;> rfl
  | succ f ih =>
    intro l h
    cases l with
    | nil => rfl
    | cons c rest =>
      have hc : c ≠ '<' := h c (List.mem_cons_self _ _)
      have hb : ('<' == c) = false := beq_eq_false_iff_ne.mpr (Ne.symm hc)
      have hpre : List.isPrefixOf ('<' :: p) (c :: rest) = false := by
        simp [List.isPrefixOf, hb]
      simp only [replace_fuel, hpre, Bool.false_eq_true, if_false]
      rw [ih rest (fun d hd => h d (List.mem_cons_of_mem _ hd))]

/-- Helper: str_replace with a pattern starting with < is the identity on a
string that contains no <. -/
lemma str_replace_no_lt (s pat rep : String) (p : List Char)
    (hs : ∀ c ∈ s.data, c ≠ '<') (hpat : pat.data = '<' :: p) :
    str_replace s pat rep = s := by
  show String.mk (replace_fuel pat.data rep.data s.data.length s.data) = s
  rw [hpat, replace_fuel_no_lt p rep.data s.data.length s.data hs]

/-- Helper: the ip token does not occur in the source token. -/
lemma str_replace_source_ip (ip : String) :
    str_replace "<source>" "<ip>" ip = "<source>" := by
  have h : replace_fuel "<ip>".data ip.data 7 "source>".data = "source>".data :=
    replace_fuel_no_lt ['i', 'p', '>'] ip.data 7 "source>".data (by decide)
  calc str_replace "<source>" "<ip>" ip
      = String.mk ('<' :: replace_fuel "<ip>".data ip.data 7 "source>".data) := rfl
    _ = String.mk ('<' :: "source>".data) := by rw [h]
    _ = "<source>" := rfl

/-- Helper: the hostname token does not occur in the source token. -/
lemma str_replace_source_hostname (host : String) :
    str_replace "<source>" "<hostname>" host = "<source>" := by
  have h : replace_fuel "<hostname>".data host.data 7 "source>".data = "source>".data :=
    replace_fuel_no_lt ['h', 'o', 's', 't', 'n', 'a', 'm', 'e', '>'] host.data 7
      "source>".data (by decide)
  calc str_replace "<source>" "<hostname>" host
      = String.mk ('<' :: replace_fuel "<hostname>".data host.data 7 "source>".data) := rfl
    _ = String.mk ('<' :: "source>".data) := by rw [h]
    _ = "<source>" := rfl

/-- Helper: replacing the source token inside the bare source-token template
yields the replacement itself. -/
lemma str_replace_source_source (name : String) :
    str_replace "<source>" "<source>" name = name := by
  calc str_replace "<source>" "<source>" name
      = String.mk (name.data ++ []) := rfl
    _ = String.mk name.data := by rw [List.append_nil]
    _ = name := rfl

/-- Helper: on the bare source-token template, format_template substitutes
the selected name (when it contains no <) for the token. -/
lemma format_template_source_name (ip host timeStr name : String) (w h : Nat)
    (hname : ∀ c ∈ name.data, c ≠ '<') :
    format_template "<source>" ip host (some name) w h timeStr = name := by
  have hne : ("<source>" : String) = "" ↔ False := by simp
  simp only [format_template, hne, if_false, Option.getD_some]
  rw [str_replace_source_ip, str_replace_source_hostname, str_replace_source_source]
  rw [str_replace_no_lt name "<width>" (toString w) ['w', 'i', 'd', 't', 'h', '>'] hname rfl]
  rw [str_replace_no_lt name "<height>" (toString h) ['h', 'e', 'i', 'g', 'h', 't', '>']
    hname rfl]
  rw [str_replace_no_lt name "<resolution>" (toString w ++ "x" ++ toString h)
    ['r', 'e', 's', 'o', 'l', 'u', 't', 'i', 'o', 'n', '>'] hname rfl]
  rw [str_replace_no_lt name "<time>" timeStr ['t', 'i', 'm', 'e', '>'] hname rfl]

/-- Helper: with no selected source, the source token becomes the empty
string. -/
lemma format_template_source_none (ip host timeStr : String) (w h : Nat) :
    format_template "<source>" ip host none w h timeStr = "" := by
  have hne : ("<source>" : String) = "" ↔ False := by simp
  simp only [format_template, hne, if_false, Option.getD_none]
  rw [str_replace_source_ip, str_replace_source_hostname, str_replace_source_source]
  rw [str_replace_no_lt "" "<width>" (toString w) ['w', 'i', 'd', 't', 'h', '>']
    (by decide) rfl]
  rw [str_replace_no_lt "" "<height>" (toString h) ['h', 'e', 'i', 'g', 'h', 't', '>']
    (by decide) rfl]
  rw [str_replace_no_lt "" "<resolution>" (toString w ++ "x" ++ toString h)
    ['r', 'e', 's', 'o', 'l', 'u', 't', 'i', 'o', 'n', '>'] (by decide) rfl]
  rw [str_replace_no_lt "" "<time>" timeStr ['t', 'i', 'm', 'e', '>'] (by decide) rfl]

/-- C8 counterexample: after a failed connection to the unknown source
"Ghost" the receiver handle is indeed null, but the direct sink substitutes
the still-selected name "Ghost" for the source token, not the empty string
the claim requires. -/
theorem fallback_source_empty_counterexample :
    (connect_to_source ⟨some 3, some "Ghost"⟩ (fun _ => none)).1.receiver = none ∧
    format_template "<source>" "10.0.0.5" "pi" (some "Ghost") 1920 1080 "12:00:00" =
      "Ghost" ∧
    format_template "<source>" "10.0.0.5" "pi" (some "Ghost") 1920 1080 "12:00:00" ≠ "" := by
  refine ⟨by decide, by decide, by decide⟩

/-- C8 (amended): after selecting a source name for which connection fails,
the handle is null and the selection is retained, so the fallback message's
source token is substituted with the requested name; it becomes the empty
string only when no source is selected at all. -/
theorem fallback_renders_selected_name (r : Option Nat) (name ip host timeStr : String)
    (w h : Nat) (hname : name ≠ "") (hlt : ∀ c ∈ name.data, c ≠ '<') :
    (connect_to_source ⟨r, some name⟩ (fun _ => none)).1.receiver = none ∧
    (connect_to_source ⟨r, some name⟩ (fun _ => none)).1.selected_source = some name ∧
    format_template "<source>" ip host (some name) w h timeStr = name ∧
    format_template "<source>" ip host none w h timeStr = "" := by
  refine ⟨?_, ?_, format_template_source_name ip host timeStr name w h hlt,
    format_template_source_none ip host timeStr w h⟩
  · simp [connect_to_source, hname]
  · simp [connect_to_source, hname]

/-- Witness for C8 (amended) with the name "Studio Cam". -/
theorem fallback_renders_selected_name_witness :
    ("Studio Cam" : String) ≠ "" ∧
    (connect_to_source ⟨some 9, some "Studio Cam"⟩ (fun _ => none)).1.receiver = none ∧
    (connect_to_source ⟨some 9, some "Studio Cam"⟩ (fun _ => none)).1.selected_source =
      some "Studio Cam" ∧
    format_template "<source>" "192.168.1.20" "pi5" (some "Studio Cam") 1920 1080
      "09:30:00" = "Studio Cam" ∧
    format_template "<source>" "192.168.1.20" "pi5" none 1920 1080 "09:30:00" = "" :=
  ⟨by decide,
    fallback_renders_selected_name (some 9) "Studio Cam" "192.168.1.20" "pi5" "09:30:00"
      1920 1080 (by decide) (by decide)⟩

/-- C10: update_message never stores an empty primary message — an empty or
missing (after stripping) noConnectionMessage falls back to "No NDI Source",
any other value is stored stripped, and the subtext is always stored
stripped, possibly empty. -/
theorem update_message_primary_never_empty (msg? sub? : Option String) :
    (update_message msg? sub?).1 =
      (if (msg?.getD "").trim = "" then "No NDI Source" else (msg?.getD "").trim) ∧
    (update_message msg? sub?).2 = (sub?.getD "").trim ∧
    (update_message msg? sub?).1 ≠ "" := by
  by_cases h : (msg?.getD "").trim = ""
  · refine ⟨by simp [update_message, h], rfl, by simp [update_message, h]⟩
  · refine ⟨by simp [update_message, h], rfl, by simp [update_message, h]⟩

end NDIMonitor
